import Mathlib

/-!
Verification of the space-map orbit/follow camera core (src/view.py).

The camera state machine of `Globe3DView` is embedded as a Lean structure
`GlobeState` holding the mutable attributes the event handlers touch, and
each Python handler becomes a state-transformer function.  Numeric fields
are real numbers; `math.radians`, `math.sin`, `math.cos`, `numpy.linalg.norm`
and the numpy array operations are embedded as their exact real counterparts.
-/

namespace SpaceMap

noncomputable section

/-- Camera modes, from `Globe3DView.Camera.CameraMode` (view.py 942-946). -/
inductive CameraMode where
  | STATIC
  | ORBIT
  | FOLLOW
deriving DecidableEq

/-- Scenes, from `Globe3DView.SceneView` (view.py 516-520). -/
inductive SceneView where
  | GLOBE_VIEW
  | TRACKING_VIEW
  | EXPLORE_VIEW
deriving DecidableEq

/-- The mutable camera-related attributes of `Globe3DView` (view.py 283-294)
together with the nested `Camera.mode` field (view.py 902) and the current
scene (view.py 274).  Positions are (x, y, z) triples of kilometers. -/
structure GlobeState where
  lastPos : ℝ × ℝ
  cameraDistance : ℝ
  theta : ℝ
  phi : ℝ
  maxCameraAltitude : ℝ
  minCameraAltitude : ℝ
  isDragging : Bool
  cameraPosXYZ : ℝ × ℝ × ℝ
  cameraTarget : String × (ℝ × ℝ × ℝ)
  orbitDistance : ℝ
  mode : CameraMode
  current_scene : SceneView

/-- `math.radians` : degrees to radians. -/
def radians (x : ℝ) : ℝ := x * Real.pi / 180

/-- `Globe3DView.setCameraTarget` (view.py 332-334): stores the new target and
unconditionally resets `orbitDistance` to 20 for "Earth" and 1 otherwise. -/
def setCameraTarget (target : String) (position : ℝ × ℝ × ℝ) (s : GlobeState) : GlobeState :=
  { s with cameraTarget := (target, position),
           orbitDistance := if target = "Earth" then 20 else 1 }

/-- `Globe3DView.Camera.setCameraMode` (view.py 936-938).  The source guards
with `isinstance(mode, CameraMode)`, which always holds for a `CameraMode`
argument, so the typed embedding assigns unconditionally. -/
def setCameraMode (m : CameraMode) (s : GlobeState) : GlobeState :=
  { s with mode := m }

/-- `Globe3DView.Camera.getCameraMode` (view.py 939-941). -/
def getCameraMode (s : GlobeState) : CameraMode := s.mode

/-- `Globe3DView.getScene` (view.py 513-515). -/
def getScene (s : GlobeState) : SceneView := s.current_scene

/-- `Globe3DView.to_GLOBE_VIEW` (view.py 500-502). -/
def to_GLOBE_VIEW (s : GlobeState) : GlobeState :=
  { setCameraMode CameraMode.STATIC s with current_scene := SceneView.GLOBE_VIEW }

/-- `Globe3DView.to_TRACKING_VIEW` (view.py 504-506). -/
def to_TRACKING_VIEW (s : GlobeState) : GlobeState :=
  { setCameraMode CameraMode.FOLLOW s with current_scene := SceneView.TRACKING_VIEW }

/-- `Globe3DView.to_EXPLORE_VIEW` (view.py 508-510). -/
def to_EXPLORE_VIEW (s : GlobeState) : GlobeState :=
  { setCameraMode CameraMode.ORBIT s with current_scene := SceneView.EXPLORE_VIEW }

/-- `Globe3DView.setScene` (view.py 491-498): if/elif dispatch on the scene. -/
def setScene (scene : SceneView) (s : GlobeState) : GlobeState :=
  if scene = SceneView.GLOBE_VIEW then to_GLOBE_VIEW s
  else if scene = SceneView.TRACKING_VIEW then to_TRACKING_VIEW s
  else if scene = SceneView.EXPLORE_VIEW then to_EXPLORE_VIEW s
  else s

/-- `Globe3DView.updateOrbitCamera` (view.py 872-895).  Clamps `phi` to
[-89, 89] with two successive if statements; line 881 evaluates
`max(min(cameraDistance, maxCameraAltitude), minCameraAltitude)` but discards
the result (a bare expression statement), so only the lower bound at lines
883-884 actually updates `cameraDistance`; the eye position is computed from
`orbitDistance` (lines 891-893), not from `cameraDistance`. -/
def updateOrbitCamera (s : GlobeState) : GlobeState :=
  if s.mode = CameraMode.ORBIT then
    let phi1 : ℝ := if s.phi > 89 then 89 else s.phi
    let phi2 : ℝ := if phi1 < -89 then -89 else phi1
    let d : ℝ := if s.cameraDistance < s.minCameraAltitude then s.minCameraAltitude
                 else s.cameraDistance
    let phi_rad := radians phi2
    let theta_rad := radians s.theta
    let target_pos := s.cameraTarget.2
    let x := s.orbitDistance * Real.sin theta_rad * Real.cos phi_rad + target_pos.1
    let y := s.orbitDistance * Real.sin phi_rad + target_pos.2.1
    let z := s.orbitDistance * Real.cos theta_rad * Real.cos phi_rad + target_pos.2.2
    { s with phi := phi2, cameraDistance := d, cameraPosXYZ := (x, y, z) }
  else s

/-- `Globe3DView.wheelEvent` (view.py 863-870): in orbit mode, scales the
scroll delta by the normalized altitude `t` and subtracts; no clamping here
(the `updateOrbitCamera` and `update` calls at 869-870 are commented out). -/
def wheelEvent (scrollDistance : ℝ) (s : GlobeState) : GlobeState :=
  if s.mode = CameraMode.ORBIT then
    let t := (s.cameraDistance - s.minCameraAltitude) /
      (s.maxCameraAltitude - s.minCameraAltitude)
    { s with cameraDistance := s.cameraDistance - scrollDistance * t }
  else s

/-- `Globe3DView.mousePressEvent` (view.py 839-843). -/
def mousePressEvent (leftButton : Bool) (pos : ℝ × ℝ) (s : GlobeState) : GlobeState :=
  if s.mode = CameraMode.ORBIT ∧ leftButton = true then
    { s with isDragging := true, lastPos := pos }
  else s

/-- `Globe3DView.mouseMoveEvent` (view.py 845-856): accumulates the drag
delta into `theta`/`phi`, runs `updateOrbitCamera`, then stores the new
`lastPos`. -/
def mouseMoveEvent (pos : ℝ × ℝ) (s : GlobeState) : GlobeState :=
  if s.mode = CameraMode.ORBIT ∧ s.isDragging = true then
    let dx := pos.1 - s.lastPos.1
    let dy := pos.2 - s.lastPos.2
    let s1 := updateOrbitCamera { s with theta := s.theta - dx / 2, phi := s.phi + dy / 2 }
    { s1 with lastPos := pos }
  else s

/-- `Globe3DView.mouseReleaseEvent` (view.py 858-861). -/
def mouseReleaseEvent (leftButton : Bool) (s : GlobeState) : GlobeState :=
  if s.mode = CameraMode.ORBIT ∧ leftButton = true then
    { s with isDragging := false }
  else s

/-- The pitch clamp performed at the top of `updateOrbitCamera`
(view.py 876-879). -/
def clampPitch (p : ℝ) : ℝ :=
  if (if p > 89 then (89 : ℝ) else p) < -89 then -89 else if p > 89 then 89 else p

/-- Modelled from the spec (claim C3's reading): the orbit eye position with
`r` taken to be the camera distance clamped to
[minCameraAltitude, maxCameraAltitude], for comparison with the source's
`updateOrbitCamera`. -/
def specOrbitEye (s : GlobeState) : ℝ × ℝ × ℝ :=
  let r := max (min s.cameraDistance s.maxCameraAltitude) s.minCameraAltitude
  (r * Real.sin (radians s.theta) * Real.cos (radians s.phi) + s.cameraTarget.2.1,
   r * Real.sin (radians s.phi) + s.cameraTarget.2.2.1,
   r * Real.cos (radians s.theta) * Real.cos (radians s.phi) + s.cameraTarget.2.2.2)

/-! ### Vector and matrix utilities (view.py 952-975) -/

/-- 3-vectors, as numpy arrays of length 3. -/
abbrev Vec3 := ℝ × ℝ × ℝ

/-- `np.linalg.norm` for a 3-vector: the Euclidean norm. -/
def norm3 (v : Vec3) : ℝ := Real.sqrt (v.1 ^ 2 + v.2.1 ^ 2 + v.2.2 ^ 2)

/-- `normalize` (view.py 953-954): componentwise `v / np.linalg.norm(v)`. -/
def normalize (v : Vec3) : Vec3 :=
  (v.1 / norm3 v, v.2.1 / norm3 v, v.2.2 / norm3 v)

/-- `np.cross` for 3-vectors. -/
def cross3 (a b : Vec3) : Vec3 :=
  (a.2.1 * b.2.2 - a.2.2 * b.2.1,
   a.2.2 * b.1 - a.1 * b.2.2,
   a.1 * b.2.1 - a.2.1 * b.1)

/-- Componentwise subtraction of numpy 3-vectors. -/
def vsub (a b : Vec3) : Vec3 := (a.1 - b.1, a.2.1 - b.2.1, a.2.2 - b.2.2)

/-- Componentwise negation of a numpy 3-vector. -/
def vneg (a : Vec3) : Vec3 := (-a.1, -a.2.1, -a.2.2)

/-- Dot product of 3-vectors. -/
def dot3 (a b : Vec3) : ℝ := a.1 * b.1 + a.2.1 * b.2.1 + a.2.2 * b.2.2

/-- 4x4 real matrices, as numpy 2-D arrays. -/
abbrev Mat4 := Matrix (Fin 4) (Fin 4) ℝ

/-- The local `f` of `look_at` (view.py 960): forward direction. -/
def la_forward (eye center : Vec3) : Vec3 := normalize (vsub center eye)

/-- The local `s` of `look_at` (view.py 961): side direction. -/
def la_side (eye center up : Vec3) : Vec3 := normalize (cross3 (la_forward eye center) up)

/-- The local `u` of `look_at` (view.py 962): recomputed up direction. -/
def la_up (eye center up : Vec3) : Vec3 := cross3 (la_side eye center up) (la_forward eye center)

/-- `look_at` (view.py 959-975): `M` is `np.identity(4)` with its first three
rows' first three entries overwritten by `s`, `u`, `-f`; `T` is
`np.identity(4)` with the first three entries of its last column set to
`-eye`; the result is `np.dot(M, T)`. -/
def look_at (eye center up : Vec3) : Mat4 :=
  let f := la_forward eye center
  let s := la_side eye center up
  let u := la_up eye center up
  let M : Mat4 :=
    !![s.1, s.2.1, s.2.2, 0;
       u.1, u.2.1, u.2.2, 0;
       -f.1, -f.2.1, -f.2.2, 0;
       0, 0, 0, 1]
  let T : Mat4 :=
    !![1, 0, 0, -eye.1;
       0, 1, 0, -eye.2.1;
       0, 0, 1, -eye.2.2;
       0, 0, 0, 1]
  M * T

/-- Modelled from the spec (claim C9's wording): the rotation matrix whose
rows are side, recomputed up, and negated forward. -/
def viewRotation (eye center up : Vec3) : Mat4 :=
  !![(la_side eye center up).1, (la_side eye center up).2.1, (la_side eye center up).2.2, 0;
     (la_up eye center up).1, (la_up eye center up).2.1, (la_up eye center up).2.2, 0;
     -(la_forward eye center).1, -(la_forward eye center).2.1, -(la_forward eye center).2.2, 0;
     0, 0, 0, 1]

/-- Modelled from the spec (claim C9's wording): the translation matrix by a
vector `v`. -/
def translationMatrix (v : Vec3) : Mat4 :=
  !![1, 0, 0, v.1;
     0, 1, 0, v.2.1;
     0, 0, 1, v.2.2;
     0, 0, 0, 1]

/-! ### Concrete states used as inputs for witnesses and counterexamples.
Earth's mean radius in kilometers is 6371, so `minCameraAltitude` = 6372 and
`maxCameraAltitude` = 318550 (view.py 288-289). -/

/-- An orbit-mode state sitting exactly at the minimum altitude, with the
initial orbit distance `Earth.radius.km + 10` (view.py 294). -/
def exOrbit : GlobeState :=
  { lastPos := (0, 0)
    cameraDistance := 6372
    theta := 0
    phi := 0
    maxCameraAltitude := 318550
    minCameraAltitude := 6372
    isDragging := true
    cameraPosXYZ := (0, 0, 20)
    cameraTarget := ("Earth", (0, 0, 0))
    orbitDistance := 6381
    mode := CameraMode.ORBIT
    current_scene := SceneView.EXPLORE_VIEW }

/-- An orbit-mode state sitting exactly at the maximum altitude. -/
def exMax : GlobeState :=
  { exOrbit with cameraDistance := 318550, isDragging := false }

/-- A static-mode state (globe view). -/
def exGlobe : GlobeState :=
  { exOrbit with mode := CameraMode.STATIC, current_scene := SceneView.GLOBE_VIEW }

/-! ### Helper lemmas about the event handlers -/

theorem updateOrbitCamera_mode (s : GlobeState) : (updateOrbitCamera s).mode = s.mode := by
  unfold updateOrbitCamera
  split <;> rfl

theorem updateOrbitCamera_isDragging (s : GlobeState) :
    (updateOrbitCamera s).isDragging = s.isDragging := by
  unfold updateOrbitCamera
  split <;> rfl

theorem mouseMoveEvent_mode (p : ℝ × ℝ) (s : GlobeState) :
    (mouseMoveEvent p s).mode = s.mode := by
  unfold mouseMoveEvent
  split
  · simp [updateOrbitCamera_mode]
  · rfl

theorem mouseMoveEvent_isDragging (p : ℝ × ℝ) (s : GlobeState) :
    (mouseMoveEvent p s).isDragging = s.isDragging := by
  unfold mouseMoveEvent
  split
  · simp [updateOrbitCamera_isDragging]
  · rfl

theorem updateOrbitCamera_phi_mem (s : GlobeState) (h : s.mode = CameraMode.ORBIT) :
    -89 ≤ (updateOrbitCamera s).phi ∧ (updateOrbitCamera s).phi ≤ 89 := by
  unfold updateOrbitCamera
  rw [if_pos h]
  refine ⟨?_, ?_⟩ <;> simp only [] <;> split_ifs <;> linarith

theorem mouseMoveEvent_phi_mem (p : ℝ × ℝ) (s : GlobeState)
    (hm : s.mode = CameraMode.ORBIT) (hd : s.isDragging = true) :
    -89 ≤ (mouseMoveEvent p s).phi ∧ (mouseMoveEvent p s).phi ≤ 89 := by
  unfold mouseMoveEvent
  rw [if_pos ⟨hm, hd⟩]
  exact updateOrbitCamera_phi_mem _ hm

theorem foldl_mouseMoveEvent_mode (L : List (ℝ × ℝ)) (s : GlobeState) :
    (L.foldl (fun st p => mouseMoveEvent p st) s).mode = s.mode := by
  induction L generalizing s with
  | nil => rfl
  | cons p L ih => rw [List.foldl_cons, ih, mouseMoveEvent_mode]

theorem foldl_mouseMoveEvent_isDragging (L : List (ℝ × ℝ)) (s : GlobeState) :
    (L.foldl (fun st p => mouseMoveEvent p st) s).isDragging = s.isDragging := by
  induction L generalizing s with
  | nil => rfl
  | cons p L ih => rw [List.foldl_cons, ih, mouseMoveEvent_isDragging]

/-! ### Claim theorems -/

/-- C2: for every sequence of orbit-mode pitch updates (drag events, each of
which runs the orbit-camera update), the stored pitch `phi` lies in
[-89, 89] degrees after the update. -/
theorem orbit_pitch_clamped (s : GlobeState) (ps : List (ℝ × ℝ))
    (hm : s.mode = CameraMode.ORBIT) (hd : s.isDragging = true) (hne : ps ≠ []) :
    -89 ≤ (ps.foldl (fun st p => mouseMoveEvent p st) s).phi ∧
      (ps.foldl (fun st p => mouseMoveEvent p st) s).phi ≤ 89 := by
  rcases List.eq_nil_or_concat ps with rfl | ⟨L, b, rfl⟩
  · exact absurd rfl hne
  · rw [List.concat_eq_append, List.foldl_append, List.foldl_cons, List.foldl_nil]
    refine mouseMoveEvent_phi_mem b _ ?_ ?_
    · rw [foldl_mouseMoveEvent_mode]; exact hm
    · rw [foldl_mouseMoveEvent_isDragging]; exact hd

/-- Witness for C2 at a concrete orbit-mode state and a one-event drag. -/
theorem orbit_pitch_clamped_witness :
    -89 ≤ (([((3 : ℝ), (4 : ℝ))]).foldl (fun st p => mouseMoveEvent p st) exOrbit).phi ∧
      (([((3 : ℝ), (4 : ℝ))]).foldl (fun st p => mouseMoveEvent p st) exOrbit).phi ≤ 89 :=
  orbit_pitch_clamped exOrbit [((3 : ℝ), (4 : ℝ))] rfl rfl (by simp)

/-- C4: `setCameraTarget` replaces the stored target with the pair
(name, position) and resets the orbit anchor distance to the Earth-specific
value 20 when the name is "Earth" and to the smaller value 1 otherwise; in
particular targeting "Satellite-1" and then "Earth" leaves it at 20. -/
theorem setCameraTarget_spec (s : GlobeState) (n : String) (p : ℝ × ℝ × ℝ) :
    (setCameraTarget n p s).cameraTarget = (n, p) ∧
    (setCameraTarget n p s).orbitDistance = (if n = "Earth" then 20 else 1) ∧
    (setCameraTarget "Earth" ((0 : ℝ), (0 : ℝ), (0 : ℝ))
      (setCameraTarget "Satellite-1" ((100 : ℝ), (0 : ℝ), (0 : ℝ)) s)).orbitDistance = 20 := by
  refine ⟨rfl, rfl, ?_⟩
  simp [setCameraTarget]

/-- C5: `setCameraMode` changes only the camera-mode field; every other
stored field — in particular yaw, pitch and camera distance — is unchanged,
so a Static → Orbit → Static round trip preserves the stored
theta/phi/distance. -/
theorem setCameraMode_only_mode (s : GlobeState) (m : CameraMode) :
    (setCameraMode m s).mode = m ∧
    (setCameraMode m s).theta = s.theta ∧
    (setCameraMode m s).phi = s.phi ∧
    (setCameraMode m s).cameraDistance = s.cameraDistance ∧
    (setCameraMode m s).orbitDistance = s.orbitDistance ∧
    (setCameraMode m s).cameraTarget = s.cameraTarget ∧
    (setCameraMode m s).cameraPosXYZ = s.cameraPosXYZ ∧
    (setCameraMode m s).isDragging = s.isDragging ∧
    (setCameraMode m s).lastPos = s.lastPos ∧
    (setCameraMode m s).minCameraAltitude = s.minCameraAltitude ∧
    (setCameraMode m s).maxCameraAltitude = s.maxCameraAltitude ∧
    (setCameraMode m s).current_scene = s.current_scene ∧
    (setCameraMode CameraMode.STATIC (setCameraMode CameraMode.ORBIT
      (setCameraMode CameraMode.STATIC s))).theta = s.theta ∧
    (setCameraMode CameraMode.STATIC (setCameraMode CameraMode.ORBIT
      (setCameraMode CameraMode.STATIC s))).phi = s.phi ∧
    (setCameraMode CameraMode.STATIC (setCameraMode CameraMode.ORBIT
      (setCameraMode CameraMode.STATIC s))).cameraDistance = s.cameraDistance :=
  ⟨rfl, rfl, rfl, rfl, rfl, rfl, rfl, rfl, rfl, rfl, rfl, rfl, rfl, rfl, rfl⟩

/-- C6: `setScene` maps GlobeView, TrackingView, ExploreView to camera modes
Static, Follow, Orbit respectively, stores the scene, and `getScene` then
returns it. -/
theorem setScene_spec (s : GlobeState) :
    (setScene SceneView.GLOBE_VIEW s).mode = CameraMode.STATIC ∧
    getScene (setScene SceneView.GLOBE_VIEW s) = SceneView.GLOBE_VIEW ∧
    (setScene SceneView.TRACKING_VIEW s).mode = CameraMode.FOLLOW ∧
    getScene (setScene SceneView.TRACKING_VIEW s) = SceneView.TRACKING_VIEW ∧
    (setScene SceneView.EXPLORE_VIEW s).mode = CameraMode.ORBIT ∧
    getScene (setScene SceneView.EXPLORE_VIEW s) = SceneView.EXPLORE_VIEW :=
  ⟨rfl, rfl, rfl, rfl, rfl, rfl⟩

/-- C7: in Static or Follow mode, every mouse-press, mouse-move,
mouse-release and wheel event is a no-op on the whole state — in particular
theta, phi, the camera distance, the dragging flag and the computed eye
position are unchanged. -/
theorem input_noop_outside_orbit (s : GlobeState)
    (h : s.mode = CameraMode.STATIC ∨ s.mode = CameraMode.FOLLOW) :
    (∀ b p, mousePressEvent b p s = s) ∧ (∀ p, mouseMoveEvent p s = s) ∧
    (∀ b, mouseReleaseEvent b s = s) ∧ (∀ d, wheelEvent d s = s) := by
  have hm : ¬s.mode = CameraMode.ORBIT := by
    rcases h with h | h <;> rw [h] <;> intro hc <;> exact CameraMode.noConfusion hc
  refine ⟨fun b p => ?_, fun p => ?_, fun b => ?_, fun d => ?_⟩
  · unfold mousePressEvent
    rw [if_neg (fun hc => hm hc.1)]
  · unfold mouseMoveEvent
    rw [if_neg (fun hc => hm hc.1)]
  · unfold mouseReleaseEvent
    rw [if_neg (fun hc => hm hc.1)]
  · unfold wheelEvent
    rw [if_neg hm]

theorem wheelEvent_fixed_at_min (d : ℝ) (s : GlobeState)
    (hd : s.cameraDistance = s.minCameraAltitude) : wheelEvent d s = s := by
  obtain ⟨lp, cd, th, ph, mx, mn, idr, cp, ct, od, md, cs⟩ := s
  dsimp only at hd
  unfold wheelEvent
  split
  · simp only [hd, sub_self, zero_div, mul_zero, sub_zero]
  · rfl

/-- C10: when the stored camera distance equals the minimum altitude, the
scroll scaling factor `t` is zero, so every wheel event — and hence every
sequence of wheel events — leaves the distance exactly at the minimum
altitude. -/
theorem scroll_fixed_at_min (s : GlobeState) (hd : s.cameraDistance = s.minCameraAltitude)
    (deltas : List ℝ) :
    (s.cameraDistance - s.minCameraAltitude) /
        (s.maxCameraAltitude - s.minCameraAltitude) = 0 ∧
      (deltas.foldl (fun st d => wheelEvent d st) s).cameraDistance = s.minCameraAltitude := by
  refine ⟨by rw [hd, sub_self, zero_div], ?_⟩
  induction deltas generalizing s with
  | nil => exact hd
  | cons d L ih =>
    rw [List.foldl_cons, wheelEvent_fixed_at_min d s hd]
    exact ih s hd

/-- Witness for C10 at a concrete orbit-mode state resting at the minimum
altitude, scrolled by a one-element delta sequence. -/
theorem scroll_fixed_at_min_witness :
    (exOrbit.cameraDistance - exOrbit.minCameraAltitude) /
        (exOrbit.maxCameraAltitude - exOrbit.minCameraAltitude) = 0 ∧
      (([(120 : ℝ)]).foldl (fun st d => wheelEvent d st) exOrbit).cameraDistance =
        exOrbit.minCameraAltitude :=
  scroll_fixed_at_min exOrbit rfl [(120 : ℝ)]

/-- C1: evaluation of the code at the failing input.  Starting from an
orbit-mode state whose distance sits at the maximum altitude (inside the
claimed invariant interval), one wheel event with delta -120 followed by
`updateOrbitCamera` leaves the stored camera distance strictly above
`maxCameraAltitude`: the upper bound claimed by the spec is not enforced
(view.py line 881 computes the two-sided clamp but discards the result). -/
theorem scroll_exceeds_max :
    exMax.maxCameraAltitude <
      (updateOrbitCamera (wheelEvent (-120) exMax)).cameraDistance := by
  norm_num [wheelEvent, updateOrbitCamera, exMax, exOrbit]

/-- C3 counterexample: at a concrete orbit-mode state whose clamped camera
distance (6372) differs from the stored `orbitDistance` (6381), the eye
position computed by `updateOrbitCamera` is not the one the claim's formula
(with `r` the clamped camera distance) predicts: the source uses
`orbitDistance` as the radius. -/
theorem orbit_eye_ne_spec :
    (updateOrbitCamera exOrbit).cameraPosXYZ ≠ specOrbitEye exOrbit := by
  norm_num [updateOrbitCamera, specOrbitEye, exOrbit, radians, Prod.ext_iff]

/-- C3 (amended): in orbit mode the computed eye position equals
(r·sin(theta)·cos(phi') + target.x, r·sin(phi') + target.y,
r·cos(theta)·cos(phi') + target.z) where r is the stored orbit anchor
distance `orbitDistance` (not the scroll-controlled camera distance),
theta the stored yaw and phi' the clamped stored pitch, in radians. -/
theorem updateOrbitCamera_eye (s : GlobeState) (hm : s.mode = CameraMode.ORBIT) :
    (updateOrbitCamera s).cameraPosXYZ =
      (s.orbitDistance * Real.sin (radians s.theta) * Real.cos (radians (clampPitch s.phi)) +
         s.cameraTarget.2.1,
       s.orbitDistance * Real.sin (radians (clampPitch s.phi)) + s.cameraTarget.2.2.1,
       s.orbitDistance * Real.cos (radians s.theta) * Real.cos (radians (clampPitch s.phi)) +
         s.cameraTarget.2.2.2) := by
  unfold updateOrbitCamera clampPitch
  rw [if_pos hm]

/-- Witness for C3 (amended), realizing the spec's example: with the target
at the origin, orbit radius planetRadius + 10 = 6381, yaw 0 and pitch 0, the
computed eye position is (0, 0, 6381). -/
theorem updateOrbitCamera_eye_witness :
    (updateOrbitCamera exOrbit).cameraPosXYZ = ((0 : ℝ), (0 : ℝ), (6381 : ℝ)) := by
  rw [updateOrbitCamera_eye exOrbit rfl]
  norm_num [exOrbit, clampPitch, radians]

theorem sumsq_pos (x y z : ℝ) (h : ¬(x = 0 ∧ y = 0 ∧ z = 0)) :
    0 < x ^ 2 + y ^ 2 + z ^ 2 := by
  by_contra hc
  push_neg at hc
  have hx : x = 0 := pow_eq_zero_iff two_ne_zero |>.mp
    (le_antisymm (by nlinarith [sq_nonneg y, sq_nonneg z]) (sq_nonneg x))
  have hy : y = 0 := pow_eq_zero_iff two_ne_zero |>.mp
    (le_antisymm (by nlinarith [sq_nonneg x, sq_nonneg z]) (sq_nonneg y))
  have hz : z = 0 := pow_eq_zero_iff two_ne_zero |>.mp
    (le_antisymm (by nlinarith [sq_nonneg x, sq_nonneg y]) (sq_nonneg z))
  exact h ⟨hx, hy, hz⟩

theorem norm3_pos (v : Vec3) (h : v ≠ ((0 : ℝ), (0 : ℝ), (0 : ℝ))) : 0 < norm3 v := by
  obtain ⟨x, y, z⟩ := v
  have hS : 0 < x ^ 2 + y ^ 2 + z ^ 2 :=
    sumsq_pos x y z (by simpa [Prod.ext_iff] using h)
  exact Real.sqrt_pos.mpr hS

/-- C8: for every nonzero vector `v`, `normalize v` is `v` scaled by
`1 / norm v` and has unit Euclidean length.  (For zero `v` the source divides
by zero, so the zero case is excluded by hypothesis.) -/
theorem normalize_spec (v : Vec3) (h : v ≠ ((0 : ℝ), (0 : ℝ), (0 : ℝ))) :
    normalize v = (v.1 * (1 / norm3 v), v.2.1 * (1 / norm3 v), v.2.2 * (1 / norm3 v)) ∧
      norm3 (normalize v) = 1 := by
  constructor
  · simp [normalize, div_eq_mul_inv]
  · obtain ⟨x, y, z⟩ := v
    have hS : 0 < x ^ 2 + y ^ 2 + z ^ 2 :=
      sumsq_pos x y z (by simpa [Prod.ext_iff] using h)
    have hnsq : norm3 (x, y, z) ^ 2 = x ^ 2 + y ^ 2 + z ^ 2 := Real.sq_sqrt hS.le
    have key : (x / norm3 (x, y, z)) ^ 2 + (y / norm3 (x, y, z)) ^ 2 +
        (z / norm3 (x, y, z)) ^ 2 = 1 := by
      rw [div_pow, div_pow, div_pow, div_add_div_same, div_add_div_same, hnsq,
        div_self (ne_of_gt hS)]
    show Real.sqrt ((x / norm3 (x, y, z)) ^ 2 + (y / norm3 (x, y, z)) ^ 2 +
      (z / norm3 (x, y, z)) ^ 2) = 1
    rw [key, Real.sqrt_one]

/-- Witness for C8 at the concrete nonzero vector (3, 4, 0), whose norm
is 5. -/
theorem normalize_spec_witness :
    normalize ((3 : ℝ), (4 : ℝ), (0 : ℝ)) =
        (3 * (1 / norm3 ((3 : ℝ), (4 : ℝ), (0 : ℝ))),
         4 * (1 / norm3 ((3 : ℝ), (4 : ℝ), (0 : ℝ))),
         0 * (1 / norm3 ((3 : ℝ), (4 : ℝ), (0 : ℝ)))) ∧
      norm3 (normalize ((3 : ℝ), (4 : ℝ), (0 : ℝ))) = 1 :=
  normalize_spec ((3 : ℝ), (4 : ℝ), (0 : ℝ)) (by norm_num [Prod.ext_iff])

theorem rot_trans_mul (s1 s2 s3 u1 u2 u3 f1 f2 f3 p q r : ℝ) :
    !![s1, s2, s3, 0; u1, u2, u3, 0; -f1, -f2, -f3, 0; 0, 0, 0, 1] *
      !![1, 0, 0, -p; 0, 1, 0, -q; 0, 0, 1, -r; 0, 0, 0, 1] =
    !![s1, s2, s3, -(s1 * p + s2 * q + s3 * r);
       u1, u2, u3, -(u1 * p + u2 * q + u3 * r);
       -f1, -f2, -f3, f1 * p + f2 * q + f3 * r;
       0, 0, 0, 1] := by
  ext x y
  fin_cases x <;> fin_cases y <;>
    simp [Matrix.mul_apply, Matrix.dotProduct, Fin.sum_univ_succ] <;> ring

/-- C9: for eye, center, up with center distinct from eye and up not
collinear with the view direction, `look_at` returns the product of the
rotation matrix whose rows are side, recomputed up and negated forward with
the translation matrix by the negated eye, and multiplying out, the combined
rotation-plus-translation view transform. -/
theorem look_at_spec (eye center up : Vec3) (h1 : center ≠ eye)
    (h2 : cross3 (vsub center eye) up ≠ ((0 : ℝ), (0 : ℝ), (0 : ℝ))) :
    look_at eye center up =
        viewRotation eye center up * translationMatrix (vneg eye) ∧
      look_at eye center up =
        !![(la_side eye center up).1, (la_side eye center up).2.1,
             (la_side eye center up).2.2, -dot3 (la_side eye center up) eye;
           (la_up eye center up).1, (la_up eye center up).2.1,
             (la_up eye center up).2.2, -dot3 (la_up eye center up) eye;
           -(la_forward eye center).1, -(la_forward eye center).2.1,
             -(la_forward eye center).2.2, dot3 (la_forward eye center) eye;
           0, 0, 0, 1] := by
  constructor
  · rfl
  · show viewRotation eye center up * translationMatrix (vneg eye) = _
    exact rot_trans_mul (la_side eye center up).1 (la_side eye center up).2.1
      (la_side eye center up).2.2 (la_up eye center up).1 (la_up eye center up).2.1
      (la_up eye center up).2.2 (la_forward eye center).1 (la_forward eye center).2.1
      (la_forward eye center).2.2 eye.1 eye.2.1 eye.2.2

/-- Witness for C9 at eye (0, 0, 5), center the origin, up (0, 1, 0). -/
theorem look_at_spec_witness :
    look_at ((0 : ℝ), (0 : ℝ), (5 : ℝ)) ((0 : ℝ), (0 : ℝ), (0 : ℝ))
          ((0 : ℝ), (1 : ℝ), (0 : ℝ)) =
        viewRotation ((0 : ℝ), (0 : ℝ), (5 : ℝ)) ((0 : ℝ), (0 : ℝ), (0 : ℝ))
            ((0 : ℝ), (1 : ℝ), (0 : ℝ)) *
          translationMatrix (vneg ((0 : ℝ), (0 : ℝ), (5 : ℝ))) ∧
      look_at ((0 : ℝ), (0 : ℝ), (5 : ℝ)) ((0 : ℝ), (0 : ℝ), (0 : ℝ))
          ((0 : ℝ), (1 : ℝ), (0 : ℝ)) =
        !![(la_side ((0 : ℝ), (0 : ℝ), (5 : ℝ)) ((0 : ℝ), (0 : ℝ), (0 : ℝ))
              ((0 : ℝ), (1 : ℝ), (0 : ℝ))).1,
           (la_side ((0 : ℝ), (0 : ℝ), (5 : ℝ)) ((0 : ℝ), (0 : ℝ), (0 : ℝ))
              ((0 : ℝ), (1 : ℝ), (0 : ℝ))).2.1,
           (la_side ((0 : ℝ), (0 : ℝ), (5 : ℝ)) ((0 : ℝ), (0 : ℝ), (0 : ℝ))
              ((0 : ℝ), (1 : ℝ), (0 : ℝ))).2.2,
           -dot3 (la_side ((0 : ℝ), (0 : ℝ), (5 : ℝ)) ((0 : ℝ), (0 : ℝ), (0 : ℝ))
              ((0 : ℝ), (1 : ℝ), (0 : ℝ))) ((0 : ℝ), (0 : ℝ), (5 : ℝ));
           (la_up ((0 : ℝ), (0 : ℝ), (5 : ℝ)) ((0 : ℝ), (0 : ℝ), (0 : ℝ))
              ((0 : ℝ), (1 : ℝ), (0 : ℝ))).1,
           (la_up ((0 : ℝ), (0 : ℝ), (5 : ℝ)) ((0 : ℝ), (0 : ℝ), (0 : ℝ))
              ((0 : ℝ), (1 : ℝ), (0 : ℝ))).2.1,
           (la_up ((0 : ℝ), (0 : ℝ), (5 : ℝ)) ((0 : ℝ), (0 : ℝ), (0 : ℝ))
              ((0 : ℝ), (1 : ℝ), (0 : ℝ))).2.2,
           -dot3 (la_up ((0 : ℝ), (0 : ℝ), (5 : ℝ)) ((0 : ℝ), (0 : ℝ), (0 : ℝ))
              ((0 : ℝ), (1 : ℝ), (0 : ℝ))) ((0 : ℝ), (0 : ℝ), (5 : ℝ));
           -(la_forward ((0 : ℝ), (0 : ℝ), (5 : ℝ)) ((0 : ℝ), (0 : ℝ), (0 : ℝ))).1,
           -(la_forward ((0 : ℝ), (0 : ℝ), (5 : ℝ)) ((0 : ℝ), (0 : ℝ), (0 : ℝ))).2.1,
           -(la_forward ((0 : ℝ), (0 : ℝ), (5 : ℝ)) ((0 : ℝ), (0 : ℝ), (0 : ℝ))).2.2,
           dot3 (la_forward ((0 : ℝ), (0 : ℝ), (5 : ℝ)) ((0 : ℝ), (0 : ℝ), (0 : ℝ)))
             ((0 : ℝ), (0 : ℝ), (5 : ℝ));
           0, 0, 0, 1] :=
  look_at_spec ((0 : ℝ), (0 : ℝ), (5 : ℝ)) ((0 : ℝ), (0 : ℝ), (0 : ℝ))
    ((0 : ℝ), (1 : ℝ), (0 : ℝ)) (by norm_num [Prod.ext_iff])
    (by norm_num [cross3, vsub, Prod.ext_iff])

/-- Witness for C7 at a concrete static-mode state. -/
theorem input_noop_outside_orbit_witness :
    (∀ b p, mousePressEvent b p exGlobe = exGlobe) ∧
    (∀ p, mouseMoveEvent p exGlobe = exGlobe) ∧
    (∀ b, mouseReleaseEvent b exGlobe = exGlobe) ∧
    (∀ d, wheelEvent d exGlobe = exGlobe) :=
  input_noop_outside_orbit exGlobe (Or.inl rfl)

end

end SpaceMap
